import Mathlib

/-!
Verification of the Evidence Validator (self-check) and Pattern Matcher
(reflexion) components. The definitions below are a shallow embedding of
the TypeScript source: optional fields become `Option`, JavaScript string
operations are modelled by explicit `List Char` recursions, and JavaScript
truthiness (`undefined` and `""` are falsy) is made explicit.
-/

/-! ## Definitions: shallow embedding of self-check.ts and reflexion.ts -/

/-- Model of a prefix test on character lists (used to implement `includes`). -/
def startsWithL : List Char → List Char → Bool
  | [], _ => true
  | _ :: _, [] => false
  | a :: as, b :: bs => a == b && startsWithL as bs

/-- Model of JavaScript `String.prototype.includes`: `needle` occurs contiguously. -/
def containsSubL (needle : List Char) : List Char → Bool
  | [] => needle.isEmpty
  | c :: rest => startsWithL needle (c :: rest) || containsSubL needle rest

/-- `hay.includes(sub)` in JavaScript. -/
def strIncludes (hay sub : String) : Bool :=
  containsSubL sub.data hay.data

/-- `s.toLowerCase()` in JavaScript (character-wise lowering). -/
def lowerStr (s : String) : String :=
  String.mk (s.data.map Char.toLower)

/-- `s.trim()` in JavaScript: strip leading and trailing whitespace. -/
def jsTrim (s : String) : String :=
  String.mk (((s.data.dropWhile Char.isWhitespace).reverse.dropWhile Char.isWhitespace).reverse)

/-- `parts.join(sep)` in JavaScript. -/
def joinSep (sep : String) : List String → String
  | [] => ""
  | [x] => x
  | x :: y :: rest => x ++ sep ++ joinSep sep (y :: rest)

/-- JavaScript falsiness of an optional string: `undefined` and `""` are falsy. -/
def jsStrFalsy : Option String → Bool
  | none => true
  | some s => s == ""

/-- `!s || s.trim() === ""` in JavaScript: absent or whitespace-only. -/
def strBlank : Option String → Bool
  | none => true
  | some s => jsTrim s == ""

/-- `!l || l.length === 0` in JavaScript for an optional list. -/
def listEmptyOpt : Option (List String) → Bool
  | none => true
  | some l => l.length == 0

/-- Decimal digit character for a remainder (0–9). -/
def natDigit (r : Nat) : Char :=
  if r = 0 then '0' else if r = 1 then '1' else if r = 2 then '2'
  else if r = 3 then '3' else if r = 4 then '4' else if r = 5 then '5'
  else if r = 6 then '6' else if r = 7 then '7' else if r = 8 then '8' else '9'

/-- Fuel-based decimal rendering of a natural number (emits digits low to high). -/
def natToDecAux : Nat → Nat → List Char → List Char
  | 0, _, acc => acc
  | fuel + 1, n, acc =>
    if n < 10 then natDigit n :: acc
    else natToDecAux fuel (n / 10) (natDigit (n % 10) :: acc)

/-- Model of JavaScript number-to-string interpolation for a list length. -/
def natToDec (n : Nat) : String := String.mk (natToDecAux (n + 1) n [])

/-- The `Evidence` interface of self-check.ts. -/
structure Evidence where
  testResults : Option String
  codeChanges : Option (List String)
  validation : Option String

/-- The `Implementation` interface of self-check.ts. -/
structure Implementation where
  testsPassed : Bool
  testOutput : Option String
  requirements : Option (List String)
  requirementsMet : Option (List String)
  assumptions : Option (List String)
  assumptionsVerified : Option (List String)
  evidence : Option Evidence
  status : Option String
  description : Option String
  errors : Option (List String)
  warnings : Option (List String)

/-- The `ValidationResult` interface of self-check.ts. -/
structure ValidationResult where
  passed : Bool
  issues : List String
  report : String

/-- The `UNCERTAINTY_WORDS` constant of self-check.ts. -/
def UNCERTAINTY_WORDS : List String :=
  ["probably", "maybe", "should work", "might work", "seems to", "appears to"]

/-- The `passingIndicators` constant inside `checkTestsPassing`. -/
def passingIndicators : List String := ["passed", "OK", "✓", "✅", "success"]

/-- `checkTestsPassing` of self-check.ts (Question 1). -/
def checkTestsPassing (impl : Implementation) : Option String :=
  if !impl.testsPassed then
    some "❌ Tests not passing — implementation is incomplete"
  else
    match impl.testOutput with
    | none => some "❌ Tests claimed passing but no output provided (hallucination risk)"
    | some out =>
      if jsTrim out == "" then
        some "❌ Tests claimed passing but no output provided (hallucination risk)"
      else if !(passingIndicators.any (fun ind => strIncludes (lowerStr out) (lowerStr ind))) then
        some "❌ Test output does not contain a passing indicator"
      else none

/-- The `unmet` list computed inside `checkRequirementsMet`. -/
def unmetRequirements (impl : Implementation) : List String :=
  (impl.requirements.getD []).filter (fun r => !(decide (r ∈ impl.requirementsMet.getD [])))

/-- `checkRequirementsMet` of self-check.ts (Question 2). -/
def checkRequirementsMet (impl : Implementation) : Option String :=
  if (impl.requirements.getD []).length == 0 then none
  else if (unmetRequirements impl).length == 0 then none
  else some ("❌ Requirements not fully met: " ++ joinSep ", " (unmetRequirements impl))

/-- The `unverified` list computed inside `checkAssumptionsVerified`. -/
def unverifiedAssumptions (impl : Implementation) : List String :=
  (impl.assumptions.getD []).filter (fun a => !(decide (a ∈ impl.assumptionsVerified.getD [])))

/-- `checkAssumptionsVerified` of self-check.ts (Question 3). -/
def checkAssumptionsVerified (impl : Implementation) : Option String :=
  if (impl.assumptions.getD []).length == 0 then none
  else if (unverifiedAssumptions impl).length == 0 then none
  else some ("❌ Unverified assumptions: " ++ joinSep ", " (unverifiedAssumptions impl))

/-- `impl.evidence ?? {}` — the defaulted empty evidence record. -/
def noEvidence : Evidence := ⟨none, none, none⟩

/-- The `missing` list computed inside `checkEvidenceExists`. -/
def evidenceMissing (impl : Implementation) : List String :=
  (if strBlank (impl.evidence.getD noEvidence).testResults then ["testResults"] else []) ++
  (if listEmptyOpt (impl.evidence.getD noEvidence).codeChanges then ["codeChanges"] else []) ++
  (if strBlank (impl.evidence.getD noEvidence).validation then ["validation"] else [])

/-- `checkEvidenceExists` of self-check.ts (Question 4). -/
def checkEvidenceExists (impl : Implementation) : Option String :=
  if (evidenceMissing impl).length == 0 then none
  else some ("❌ Missing evidence: " ++ joinSep ", " (evidenceMissing impl))

/-- The `uncertaintyFound` list computed inside `detectHallucinations`. -/
def uncertaintyFound (impl : Implementation) : List String :=
  UNCERTAINTY_WORDS.filter (fun w => strIncludes (lowerStr (impl.description.getD "")) w)

/-- `detectHallucinations` of self-check.ts: the red-flag scanner. -/
def detectHallucinations (impl : Implementation) : List String :=
  (if impl.testsPassed && jsStrFalsy impl.testOutput then
     ["Claims tests pass without showing output"] else []) ++
  (if impl.status == some "complete" && impl.evidence.isNone then
     ["Claims completion without any evidence"] else []) ++
  (if impl.status == some "complete" && !impl.testsPassed then
     ["Claims completion despite failing tests"] else []) ++
  (if (decide (0 < (impl.errors.getD []).length) || decide (0 < (impl.warnings.getD []).length))
      && impl.status == some "complete" then
     ["Ignored errors or warnings while claiming completion"] else []) ++
  (if 0 < (uncertaintyFound impl).length then
     ["Uncertainty language detected: \"" ++ joinSep "\", \"" (uncertaintyFound impl) ++ "\""]
   else [])

/-- The fixed success block emitted by `formatReport` (its `join("\n")` arguments). -/
def successReportLines : List String :=
  ["📋 Self-Check Validation:",
   "   ✅ Tests passing",
   "   ✅ All requirements met",
   "   ✅ All assumptions verified",
   "   ✅ Evidence provided",
   "",
   "📊 Validation: PASSED",
   "✅ Implementation complete with evidence"]

/-- `formatReport` of self-check.ts. -/
def formatReport (passed : Bool) (issues : List String) : String :=
  if passed then joinSep "\n" successReportLines
  else
    joinSep "\n"
      (["📋 Self-Check Validation:"] ++
       issues.map (fun i => "   " ++ i) ++
       ["", "📊 Validation: FAILED",
        "❌ " ++ natToDec issues.length ++ " issue(s) must be resolved before claiming completion"])

/-- Turn a single check result into its contribution to the issues list. -/
def optIssue : Option String → List String
  | none => []
  | some s => [s]

/-- The `issues` array built by `selfCheck`: the four checks in order, then the
red flags each prefixed with the hallucination marker. -/
def selfCheckIssues (impl : Implementation) : List String :=
  optIssue (checkTestsPassing impl) ++
  optIssue (checkRequirementsMet impl) ++
  optIssue (checkAssumptionsVerified impl) ++
  optIssue (checkEvidenceExists impl) ++
  (detectHallucinations impl).map (fun f => "🚨 Hallucination detected: " ++ f)

/-- `selfCheck` of self-check.ts. -/
def selfCheck (impl : Implementation) : ValidationResult :=
  ⟨(selfCheckIssues impl).length == 0, selfCheckIssues impl,
   formatReport ((selfCheckIssues impl).length == 0) (selfCheckIssues impl)⟩

/-- The `ErrorInfo` interface of reflexion.ts. -/
structure ErrorInfo where
  testName : Option String
  errorType : Option String
  errorMessage : Option String
  traceback : Option String
  rootCause : Option String
  solution : Option String
  prevention : Option String
  whyMissed : Option String
  lesson : Option String
  timestamp : Option String

/-- The solution fields returned by `lookupSolution` on a hit. -/
structure SolutionFields where
  rootCause : Option String
  solution : Option String
  prevention : Option String
  lesson : Option String
  timestamp : Option String

/-- The `LookupResult` interface of reflexion.ts. -/
structure LookupResult where
  found : Bool
  solution : Option SolutionFields

/-- JavaScript truthiness of an optional string (`undefined` and `""` are falsy). -/
def jsStrTruthy (o : Option String) : Bool :=
  match o with
  | none => false
  | some s => s != ""

/-- `msg.replace(/\d+/g, "N")`: replace each maximal digit run by a single 'N'.
The Boolean argument records whether the previous character was a digit. -/
def normaliseNumbersAux : Bool → List Char → List Char
  | _, [] => []
  | inRun, c :: cs =>
    if c.isDigit then
      if inRun then normaliseNumbersAux true cs
      else 'N' :: normaliseNumbersAux true cs
    else c :: normaliseNumbersAux false cs

/-- `createErrorSignature` of reflexion.ts. -/
def createErrorSignature (e : ErrorInfo) : String :=
  joinSep " | "
    ((if jsStrTruthy e.errorType then [e.errorType.getD ""] else []) ++
     (if jsStrTruthy e.errorMessage then
        [String.mk ((normaliseNumbersAux false (e.errorMessage.getD "").data).take 120)]
      else []) ++
     (if jsStrTruthy e.testName then [e.testName.getD ""] else []))

/-- Split on runs of whitespace, dropping empty tokens: the combination
`split(/\s+/).filter(Boolean)` of reflexion.ts. The accumulator holds the
current token reversed. -/
def splitWsAux : List Char → List Char → List String
  | [], acc => if acc.isEmpty then [] else [String.mk acc.reverse]
  | c :: cs, acc =>
    if c.isWhitespace then
      (if acc.isEmpty then [] else [String.mk acc.reverse]) ++ splitWsAux cs []
    else splitWsAux cs (c :: acc)

/-- Whitespace tokenization of a string (non-empty tokens only). -/
def wsSplit (s : String) : List String := splitWsAux s.data []

/-- The word set of a signature: lower-case, split on whitespace, drop empties,
deduplicate (`new Set(sig.toLowerCase().split(/\s+/).filter(Boolean))`). -/
def sigWords (s : String) : List String := (wsSplit (lowerStr s)).dedup

/-- Size of the intersection of the two word sets (the `overlap` count). -/
def jaccardNum (w1 w2 : List String) : Nat :=
  (w1.filter (fun w => decide (w ∈ w2))).length

/-- Size of the union of the two word sets. -/
def jaccardDen (w1 w2 : List String) : Nat :=
  ((w1 ++ w2).dedup).length

/-- `matchSignatures` of reflexion.ts. The threshold is an exact rational. -/
def matchSignatures (sig1 sig2 : String) (threshold : ℚ) : Bool :=
  if (sigWords sig1).length == 0 || (sigWords sig2).length == 0 then false
  else
    decide ((jaccardNum (sigWords sig1) (sigWords sig2) : ℚ) /
              (jaccardDen (sigWords sig1) (sigWords sig2) : ℚ) ≥ threshold)

/-- The scan loop of `lookupSolution`. `parse` abstracts the host-language
`JSON.parse` applied to a trimmed line: `some` on success, `none` when the
parse throws (the `catch { continue }` branch). -/
def lookupScan (parse : String → Option ErrorInfo) (querySig : String) :
    List String → LookupResult
  | [] => ⟨false, none⟩
  | line :: rest =>
    if jsTrim line == "" then lookupScan parse querySig rest
    else
      match parse (jsTrim line) with
      | none => lookupScan parse querySig rest
      | some record =>
        if matchSignatures querySig (createErrorSignature record) (7 / 10) then
          ⟨true, some ⟨record.rootCause, record.solution, record.prevention,
                        record.lesson, record.timestamp⟩⟩
        else lookupScan parse querySig rest

/-- `lookupSolution` of reflexion.ts, with `JSON.parse` abstracted as `parse`. -/
def lookupSolution (parse : String → Option ErrorInfo) (errorInfo : ErrorInfo)
    (jsonlLines : List String) : LookupResult :=
  lookupScan parse (createErrorSignature errorInfo) jsonlLines

/-- A concrete stored record used to exercise the lookup theorem. -/
def sampleRecord : ErrorInfo :=
  ⟨some "test_math", some "AssertionError", some "Expected 5, got 3",
   none, none, none, none, none, none, none⟩

/-- A concrete parse function: only the line "\x7b\x7d" parses, to `sampleRecord`. -/
def sampleParse : String → Option ErrorInfo :=
  fun s => if s == "{}" then some sampleRecord else none

/-- Requirements subset with out-of-order, duplicated met-list. -/
def reorderedImpl : Implementation :=
  ⟨true, none, some ["a", "b"], some ["b", "a", "a"],
   none, none, none, none, none, none, none⟩

/-- A claim that fails tests while claiming completion, for the C4 witness. -/
def failingCompleteImpl : Implementation :=
  ⟨false, none, none, none, none, none, none, some "complete", none, none, none⟩

/-- Split a string at newline characters, keeping empty pieces (so the number
of produced pieces is one more than the number of newlines). -/
def splitNlAux : List Char → List Char → List String
  | [], acc => [String.mk acc.reverse]
  | c :: cs, acc =>
    if c == '\n' then String.mk acc.reverse :: splitNlAux cs []
    else splitNlAux cs (c :: acc)

/-- The lines of a rendered report. -/
def splitNl (s : String) : List String := splitNlAux s.data []

/-- The §8 passing scenario: tests pass with output, completion status, and a
full evidence record. -/
def passingImpl : Implementation :=
  ⟨true, some "12 passed, 0 failed", none, none, none, none,
   some ⟨some "pytest output", some ["a.ts: added X"], some "lint clean"⟩,
   some "complete", none, none, none⟩

/-- A claim with two issues (failing tests, no evidence) for the C2 witness. -/
def failingImpl : Implementation :=
  ⟨false, none, none, none, none, none, none, none, none, none, none⟩

/-- Replace the evidence field of a claim, leaving every other field unchanged. -/
def setEvidence (impl : Implementation) (e : Option Evidence) : Implementation :=
  ⟨impl.testsPassed, impl.testOutput, impl.requirements, impl.requirementsMet,
   impl.assumptions, impl.assumptionsVerified, e, impl.status, impl.description,
   impl.errors, impl.warnings⟩

/-- A base claim whose evidence record is present but empty. -/
def evBaseImpl : Implementation :=
  ⟨true, some "passed", none, none, none, none, some ⟨none, none, none⟩,
   none, none, none, none⟩

/-- The same claim with one evidence field (testResults) added. -/
def evPlusImpl : Implementation :=
  ⟨true, some "passed", none, none, none, none, some ⟨some "pytest output", none, none⟩,
   none, none, none, none⟩

/-- A claim whose testOutput is present but the empty string. -/
def blankOutputImpl : Implementation :=
  ⟨true, some "", none, none, none, none, none, none, none, none, none⟩

/-- A claim with testsPassed true and testOutput absent. -/
def noOutputImpl : Implementation :=
  ⟨true, none, none, none, none, none, none, none, none, none, none⟩

/-! ## Lemmas and claim theorems -/

lemma toFinset_dedup_eq (l : List String) : l.dedup.toFinset = l.toFinset := by
  ext a
  simp [List.mem_dedup]

lemma jaccardNum_card (a b : List String) (ha : a.Nodup) :
    jaccardNum a b = (a.toFinset ∩ b.toFinset).card := by
  unfold jaccardNum
  rw [← List.toFinset_card_of_nodup (ha.filter _), List.toFinset_filter]
  congr 1
  rw [← Finset.filter_mem_eq_inter]
  apply Finset.filter_congr
  intro x _
  simp

lemma jaccardDen_card (a b : List String) :
    jaccardDen a b = (a.toFinset ∪ b.toFinset).card := by
  unfold jaccardDen
  rw [← List.toFinset_card_of_nodup (List.nodup_dedup _), toFinset_dedup_eq,
    List.toFinset_append]

lemma sigWords_nodup (s : String) : (sigWords s).Nodup := List.nodup_dedup _

lemma matchSignatures_self (s : String) (t : ℚ) (hne : sigWords s ≠ []) (ht : t ≤ 1) :
    matchSignatures s s t = true := by
  have hlen : (sigWords s).length ≠ 0 := by simpa [List.length_eq_zero] using hne
  have hnum : jaccardNum (sigWords s) (sigWords s) = (sigWords s).length := by
    unfold jaccardNum
    rw [List.filter_eq_self.mpr]
    intro a ha
    simpa using ha
  have hden : jaccardDen (sigWords s) (sigWords s) = (sigWords s).length := by
    rw [jaccardDen_card, Finset.union_self, List.toFinset_card_of_nodup (sigWords_nodup s)]
  have hcond : (((sigWords s).length == 0) || ((sigWords s).length == 0)) = false := by
    simp [hlen]
  unfold matchSignatures
  rw [hcond]
  simp only [Bool.false_eq_true, if_false]
  rw [hnum, hden]
  have hdiv : ((sigWords s).length : ℚ) / ((sigWords s).length : ℚ) = 1 :=
    div_self (Nat.cast_ne_zero.mpr hlen)
  rw [hdiv]
  exact decide_eq_true ht

lemma matchSignatures_self_empty (s : String) (t : ℚ) (he : sigWords s = []) :
    matchSignatures s s t = false := by
  unfold matchSignatures
  rw [he]
  simp

/-- Claim C9: similarity is symmetric — for all signature strings A and B and
every threshold t, `matchSignatures A B t = matchSignatures B A t`. -/
theorem C9_matchSignatures_symm (sig1 sig2 : String) (t : ℚ) :
    matchSignatures sig1 sig2 t = matchSignatures sig2 sig1 t := by
  unfold matchSignatures
  rw [Bool.or_comm]
  by_cases hc : (((sigWords sig2).length == 0) || ((sigWords sig1).length == 0)) = true
  · rw [if_pos hc, if_pos hc]
  · rw [if_neg hc, if_neg hc]
    rw [decide_eq_decide]
    rw [jaccardNum_card _ _ (sigWords_nodup sig1), jaccardNum_card _ _ (sigWords_nodup sig2),
      jaccardDen_card, jaccardDen_card, Finset.inter_comm, Finset.union_comm]

/-- Claim C10: similarity is reflexive exactly on non-degenerate signatures.
If the whitespace tokenization of `s` has at least one non-empty token then
`matchSignatures s s t` is true for every threshold `t ≤ 1` (the Jaccard index
of a set with itself is 1); if it has none, `matchSignatures s s t` is false
for every threshold; in particular the empty signature produced by a record
with none of errorType, errorMessage, testName never matches itself. -/
theorem C10_matchSignatures_self_iff (s : String) (t : ℚ) :
    (sigWords s ≠ [] → t ≤ 1 → matchSignatures s s t = true) ∧
    (sigWords s = [] → matchSignatures s s t = false) ∧
    (matchSignatures
        (createErrorSignature ⟨none, none, none, none, none, none, none, none, none, none⟩)
        (createErrorSignature ⟨none, none, none, none, none, none, none, none, none, none⟩)
        t = false) :=
  ⟨fun hne ht => matchSignatures_self s t hne ht,
   fun he => matchSignatures_self_empty s t he,
   matchSignatures_self_empty _ t rfl⟩

theorem C10_witness :
    matchSignatures "abc" "abc" 1 = true ∧ matchSignatures "" "" 0 = false :=
  ⟨(C10_matchSignatures_self_iff "abc" 1).1 (by decide) le_rfl,
   (C10_matchSignatures_self_iff "" 0).2.1 (by decide)⟩

lemma mem_joinSep_data (sep : String) (parts : List String) (p : String) (c : Char)
    (hp : p ∈ parts) (hc : c ∈ p.data) : c ∈ (joinSep sep parts).data := by
  induction parts with
  | nil => cases hp
  | cons x rest ih =>
    cases rest with
    | nil =>
      have hx : p = x := by simpa using hp
      subst hx
      simpa [joinSep] using hc
    | cons y rest2 =>
      rcases List.mem_cons.mp hp with h | h
      · subst h
        show c ∈ (p ++ sep ++ joinSep sep (y :: rest2)).data
        rw [String.data_append, String.data_append]
        exact List.mem_append_left _ (List.mem_append_left _ hc)
      · have hrec := ih h
        show c ∈ (x ++ sep ++ joinSep sep (y :: rest2)).data
        rw [String.data_append]
        exact List.mem_append_right _ hrec

lemma mem_lowerStr (s : String) (c : Char) (hc : c ∈ s.data) :
    Char.toLower c ∈ (lowerStr s).data :=
  List.mem_map_of_mem _ hc

lemma splitWsAux_ne_nil (l : List Char) : ∀ acc : List Char,
    (acc ≠ [] ∨ ∃ c ∈ l, c.isWhitespace = false) → splitWsAux l acc ≠ [] := by
  induction l with
  | nil =>
    intro acc h
    rcases h with h | ⟨c, hc, _⟩
    · simp [splitWsAux, List.isEmpty_iff, h]
    · cases hc
  | cons c cs ih =>
    intro acc h
    by_cases hw : c.isWhitespace
    · rcases h with h | ⟨d, hd, hdw⟩
      · have hacc : acc.isEmpty = false := by simpa [List.isEmpty_iff] using h
        simp [splitWsAux, hw, hacc]
      · rcases List.mem_cons.mp hd with h2 | h2
        · subst h2
          rw [hw] at hdw
          cases hdw
        · have hrec := ih [] (Or.inr ⟨d, h2, hdw⟩)
          simp only [splitWsAux, hw, if_true]
          intro hcontra
          exact hrec (List.append_eq_nil.mp hcontra).2
    · have hrec := ih (c :: acc) (Or.inl (by simp))
      simpa [splitWsAux, hw] using hrec

lemma sigWords_ne_nil (s : String) (c : Char) (hc : c ∈ s.data)
    (hw : (Char.toLower c).isWhitespace = false) : sigWords s ≠ [] := by
  unfold sigWords wsSplit
  rw [Ne, List.dedup_eq_nil]
  exact splitWsAux_ne_nil _ _ (Or.inr ⟨Char.toLower c, mem_lowerStr s c hc, hw⟩)

/-- Claim C6: signature construction replaces every run of digits in
errorMessage by a single placeholder and truncates to 120 characters, so two
records with identical errorType and testName whose messages are
"Expected 5, got 3" and "Expected 12, got 7" yield signatures that compare as
similar at the default threshold 0.7. -/
theorem C6_numeric_normalisation (errorType testName : Option String) :
    matchSignatures
      (createErrorSignature ⟨testName, errorType, some "Expected 5, got 3",
        none, none, none, none, none, none, none⟩)
      (createErrorSignature ⟨testName, errorType, some "Expected 12, got 7",
        none, none, none, none, none, none, none⟩)
      (7 / 10) = true := by
  have hpart :
      (if jsStrTruthy (some "Expected 5, got 3") then
        [String.mk ((normaliseNumbersAux false
          ((some "Expected 5, got 3").getD "").data).take 120)] else []) =
      (if jsStrTruthy (some "Expected 12, got 7") then
        [String.mk ((normaliseNumbersAux false
          ((some "Expected 12, got 7").getD "").data).take 120)] else []) := by decide
  have hsig :
      createErrorSignature ⟨testName, errorType, some "Expected 5, got 3",
        none, none, none, none, none, none, none⟩ =
      createErrorSignature ⟨testName, errorType, some "Expected 12, got 7",
        none, none, none, none, none, none, none⟩ := by
    unfold createErrorSignature
    rw [hpart]
  rw [hsig]
  have hmem :
      String.mk ((normaliseNumbersAux false
          ((some "Expected 12, got 7").getD "").data).take 120) ∈
        ((if jsStrTruthy errorType then [errorType.getD ""] else []) ++
         (if jsStrTruthy (some "Expected 12, got 7") then
            [String.mk ((normaliseNumbersAux false
              ((some "Expected 12, got 7").getD "").data).take 120)] else []) ++
         (if jsStrTruthy testName then [testName.getD ""] else [])) := by
    have ht : jsStrTruthy (some "Expected 12, got 7") = true := by decide
    rw [ht]
    simp
  have hE : 'E' ∈ (createErrorSignature ⟨testName, errorType, some "Expected 12, got 7",
      none, none, none, none, none, none, none⟩).data := by
    unfold createErrorSignature
    exact mem_joinSep_data _ _ _ _ hmem (by decide)
  exact matchSignatures_self _ _ (sigWords_ne_nil _ 'E' hE (by decide)) (by norm_num)

/-- Claim C5: lookup scans the lines in the order supplied by the caller and
returns the first record whose signature is similar to the query signature at
the default threshold; blank lines and lines that fail to parse are skipped
without aborting the scan; and on the empty collection lookup returns no-match
(being a total function, it has no error outcome). `parse` abstracts the host
JSON.parse applied to the trimmed line, with `none` modelling a parse error. -/
theorem C5_lookup_first_match (parse : String → Option ErrorInfo) (e : ErrorInfo) :
    (lookupSolution parse e [] = ⟨false, none⟩) ∧
    (∀ line rest, (jsTrim line = "" ∨ parse (jsTrim line) = none) →
      lookupSolution parse e (line :: rest) = lookupSolution parse e rest) ∧
    (∀ line rest r, parse (jsTrim line) = some r → jsTrim line ≠ "" →
      matchSignatures (createErrorSignature e) (createErrorSignature r) (7 / 10) = true →
      lookupSolution parse e (line :: rest) =
        ⟨true, some ⟨r.rootCause, r.solution, r.prevention, r.lesson, r.timestamp⟩⟩) ∧
    (∀ line rest r, parse (jsTrim line) = some r → jsTrim line ≠ "" →
      matchSignatures (createErrorSignature e) (createErrorSignature r) (7 / 10) = false →
      lookupSolution parse e (line :: rest) = lookupSolution parse e rest) := by
  refine ⟨rfl, ?_, ?_, ?_⟩
  · intro line rest h
    show lookupScan parse (createErrorSignature e) (line :: rest) = _
    rw [lookupScan]
    rcases h with h | h
    · rw [h]
      simp
      rfl
    · by_cases hb : (jsTrim line == "") = true
      · rw [if_pos hb]
        rfl
      · rw [if_neg hb, h]
        rfl
  · intro line rest r hp hne hm
    show lookupScan parse (createErrorSignature e) (line :: rest) = _
    rw [lookupScan]
    have hb : ¬((jsTrim line == "") = true) := by simpa using hne
    rw [if_neg hb, hp]
    show (if matchSignatures _ _ _ then _ else _) = _
    rw [hm]
    simp only [Bool.false_eq_true, if_false]
    rfl
  · intro line rest r hp hne hm
    show lookupScan parse (createErrorSignature e) (line :: rest) = _
    rw [lookupScan]
    have hb : ¬((jsTrim line == "") = true) := by simpa using hne
    rw [if_neg hb, hp]
    show (if matchSignatures _ _ _ then _ else _) = _
    rw [hm]
    simp only [Bool.false_eq_true, if_false]
    rfl

theorem C5_witness :
    lookupSolution sampleParse sampleRecord [] = ⟨false, none⟩ ∧
    lookupSolution sampleParse sampleRecord ["not json", "   ", " {} "] =
      ⟨true, some ⟨none, none, none, none, none⟩⟩ := by
  have hmatch : matchSignatures (createErrorSignature sampleRecord)
      (createErrorSignature sampleRecord) (7 / 10) = true :=
    matchSignatures_self _ _ (by decide) (by norm_num)
  refine ⟨(C5_lookup_first_match sampleParse sampleRecord).1, ?_⟩
  have h1 := (C5_lookup_first_match sampleParse sampleRecord).2.1 "not json" ["   ", " {} "]
    (Or.inr rfl)
  have h2 := (C5_lookup_first_match sampleParse sampleRecord).2.1 "   " [" {} "]
    (Or.inl rfl)
  have h3 := (C5_lookup_first_match sampleParse sampleRecord).2.2.1 " {} " [] sampleRecord
    rfl (by decide) hmatch
  exact (h1.trans h2).trans h3

/-- Claim C3: the requirements check returns no issue exactly when every element
of `requirements` is a member of `requirementsMet` — a pure membership
condition, hence independent of the order of either list and of duplicates in
either list, and vacuously satisfied when `requirements` is empty or absent;
otherwise the unmet entries are reported jointly as one single issue. -/
theorem C3_requirements_subset (impl : Implementation) :
    (checkRequirementsMet impl = none ↔
      ∀ r ∈ impl.requirements.getD [], r ∈ impl.requirementsMet.getD []) ∧
    (checkRequirementsMet impl = none ∨
      checkRequirementsMet impl =
        some ("❌ Requirements not fully met: " ++ joinSep ", " (unmetRequirements impl))) := by
  have key : unmetRequirements impl = [] ↔
      ∀ r ∈ impl.requirements.getD [], r ∈ impl.requirementsMet.getD [] := by
    unfold unmetRequirements
    rw [List.filter_eq_nil_iff]
    constructor
    · intro h r hr
      simpa using h r hr
    · intro h r hr
      simpa using h r hr
  constructor
  · unfold checkRequirementsMet
    by_cases h0 : ((impl.requirements.getD []).length == 0) = true
    · have hreq : impl.requirements.getD [] = [] := by
        simpa [List.length_eq_zero] using h0
      rw [if_pos h0]
      exact iff_of_true rfl (by simp [hreq])
    · by_cases h1 : ((unmetRequirements impl).length == 0) = true
      · have hun : unmetRequirements impl = [] := by
          simpa [List.length_eq_zero] using h1
        rw [if_neg h0, if_pos h1]
        exact iff_of_true rfl (key.mp hun)
      · have hun : unmetRequirements impl ≠ [] := by
          simpa [List.length_eq_zero] using h1
        rw [if_neg h0, if_neg h1]
        exact iff_of_false (by simp) (fun h => hun (key.mpr h))
  · unfold checkRequirementsMet
    by_cases h0 : ((impl.requirements.getD []).length == 0) = true
    · rw [if_pos h0]
      exact Or.inl rfl
    · by_cases h1 : ((unmetRequirements impl).length == 0) = true
      · rw [if_neg h0, if_pos h1]
        exact Or.inl rfl
      · rw [if_neg h0, if_neg h1]
        exact Or.inr rfl

theorem C3_witness : checkRequirementsMet reorderedImpl = none :=
  (C3_requirements_subset reorderedImpl).1.mpr (by decide)

lemma startsWithL_append (l m : List Char) : startsWithL l (l ++ m) = true := by
  induction l with
  | nil => rfl
  | cons a as ih => simp [startsWithL, ih]

lemma startsWithL_eq_false_of_head (p s : List Char) (a b : Char)
    (hp : p.head? = some a) (hs : s.head? = some b) (hab : (a == b) = false) :
    startsWithL p s = false := by
  cases p with
  | nil => cases hp
  | cons x xs =>
    cases s with
    | nil => cases hs
    | cons y ys =>
      have hx : x = a := Option.some.inj hp
      have hy : y = b := Option.some.inj hs
      subst hx
      subst hy
      simp [startsWithL, hab]

lemma checkTestsPassing_head (impl : Implementation) (s : String)
    (h : checkTestsPassing impl = some s) : s.data.head? = some '❌' := by
  unfold checkTestsPassing at h
  split at h
  · obtain rfl := Option.some.inj h
    rfl
  · split at h
    · obtain rfl := Option.some.inj h
      rfl
    · split at h
      · obtain rfl := Option.some.inj h
        rfl
      · split at h
        · obtain rfl := Option.some.inj h
          rfl
        · cases h

lemma checkRequirementsMet_head (impl : Implementation) (s : String)
    (h : checkRequirementsMet impl = some s) : s.data.head? = some '❌' := by
  unfold checkRequirementsMet at h
  split at h
  · cases h
  · split at h
    · cases h
    · obtain rfl := Option.some.inj h
      rw [String.data_append]
      rfl

lemma checkAssumptionsVerified_head (impl : Implementation) (s : String)
    (h : checkAssumptionsVerified impl = some s) : s.data.head? = some '❌' := by
  unfold checkAssumptionsVerified at h
  split at h
  · cases h
  · split at h
    · cases h
    · obtain rfl := Option.some.inj h
      rw [String.data_append]
      rfl

lemma checkEvidenceExists_head (impl : Implementation) (s : String)
    (h : checkEvidenceExists impl = some s) : s.data.head? = some '❌' := by
  unfold checkEvidenceExists at h
  split at h
  · cases h
  · obtain rfl := Option.some.inj h
    rw [String.data_append]
    rfl

/-- Claim C4: selfCheck runs all four checks with no short-circuiting — its
issues list is exactly the four checks' issues in the fixed order
tests-passing, requirements, assumptions, evidence, followed by the red-flag
issues; every red-flag issue carries the hallucination marker prefix, and no
ordinary check issue starts with that marker. -/
theorem C4_issue_order_and_marking (impl : Implementation) :
    ((selfCheck impl).issues =
      optIssue (checkTestsPassing impl) ++ optIssue (checkRequirementsMet impl) ++
      optIssue (checkAssumptionsVerified impl) ++ optIssue (checkEvidenceExists impl) ++
      (detectHallucinations impl).map (fun f => "🚨 Hallucination detected: " ++ f)) ∧
    (∀ s ∈ (detectHallucinations impl).map (fun f => "🚨 Hallucination detected: " ++ f),
      startsWithL "🚨 Hallucination detected: ".data s.data = true) ∧
    (∀ s, (checkTestsPassing impl = some s ∨ checkRequirementsMet impl = some s ∨
           checkAssumptionsVerified impl = some s ∨ checkEvidenceExists impl = some s) →
      startsWithL "🚨 Hallucination detected: ".data s.data = false) := by
  refine ⟨rfl, ?_, ?_⟩
  · intro s hs
    rcases List.mem_map.mp hs with ⟨f, _, rfl⟩
    rw [String.data_append]
    exact startsWithL_append _ _
  · intro s h
    have hmark : ("🚨 Hallucination detected: ").data.head? = some '🚨' := rfl
    have hcross : (('🚨' : Char) == '❌') = false := by decide
    rcases h with h | h | h | h
    · exact startsWithL_eq_false_of_head _ _ _ _ hmark (checkTestsPassing_head impl s h) hcross
    · exact startsWithL_eq_false_of_head _ _ _ _ hmark (checkRequirementsMet_head impl s h) hcross
    · exact startsWithL_eq_false_of_head _ _ _ _ hmark
        (checkAssumptionsVerified_head impl s h) hcross
    · exact startsWithL_eq_false_of_head _ _ _ _ hmark (checkEvidenceExists_head impl s h) hcross

theorem C4_witness :
    startsWithL "🚨 Hallucination detected: ".data
      ("🚨 Hallucination detected: " ++ "Claims completion despite failing tests").data = true ∧
    startsWithL "🚨 Hallucination detected: ".data
      "❌ Tests not passing — implementation is incomplete".data = false := by
  constructor
  · exact (C4_issue_order_and_marking failingCompleteImpl).2.1 _ (by decide)
  · exact (C4_issue_order_and_marking failingCompleteImpl).2.2 _ (Or.inl rfl)

lemma strMk_data (s : String) : String.mk s.data = s := by
  cases s
  rfl

lemma natDigit_isDigit (r : Nat) : (natDigit r).isDigit = true := by
  unfold natDigit
  split_ifs <;> decide

lemma natToDecAux_digits (fuel : Nat) : ∀ (n : Nat) (acc : List Char),
    (∀ c ∈ acc, c.isDigit = true) → ∀ c ∈ natToDecAux fuel n acc, c.isDigit = true := by
  induction fuel with
  | zero =>
    intro n acc hacc c hc
    exact hacc c hc
  | succ fuel ih =>
    intro n acc hacc c hc
    unfold natToDecAux at hc
    split at hc
    · rcases List.mem_cons.mp hc with h | h
      · subst h
        exact natDigit_isDigit n
      · exact hacc c h
    · refine ih (n / 10) (natDigit (n % 10) :: acc) ?_ c hc
      intro d hd
      rcases List.mem_cons.mp hd with h | h
      · subst h
        exact natDigit_isDigit _
      · exact hacc d h

lemma natToDec_no_nl (n : Nat) : '\n' ∉ (natToDec n).data := by
  intro h
  have hdig := natToDecAux_digits (n + 1) n [] (by intro c hc; cases hc) _ h
  exact absurd hdig (by decide)

lemma splitNlAux_no_nl (l : List Char) : ∀ acc, '\n' ∉ l →
    splitNlAux l acc = [String.mk (acc.reverse ++ l)] := by
  induction l with
  | nil =>
    intro acc _
    simp [splitNlAux]
  | cons c cs ih =>
    intro acc h
    have hc : (c == '\n') = false := by
      simp only [beq_eq_false_iff_ne]
      exact fun he => h (he ▸ List.mem_cons_self c cs)
    unfold splitNlAux
    rw [hc]
    simp only [Bool.false_eq_true, if_false]
    rw [ih (c :: acc) (fun hm => h (List.mem_cons_of_mem _ hm))]
    simp [List.reverse_cons, List.append_assoc]

lemma splitNlAux_split (m : List Char) (l : List Char) : ∀ acc, '\n' ∉ l →
    splitNlAux (l ++ '\n' :: m) acc = String.mk (acc.reverse ++ l) :: splitNlAux m [] := by
  induction l with
  | nil =>
    intro acc _
    simp [splitNlAux]
  | cons c cs ih =>
    intro acc h
    have hc : (c == '\n') = false := by
      simp only [beq_eq_false_iff_ne]
      exact fun he => h (he ▸ List.mem_cons_self c cs)
    show splitNlAux (c :: (cs ++ '\n' :: m)) acc = _
    rw [splitNlAux, hc]
    simp only [Bool.false_eq_true, if_false]
    rw [ih (c :: acc) (fun hm => h (List.mem_cons_of_mem _ hm))]
    simp [List.reverse_cons, List.append_assoc]

lemma splitNl_joinSep (parts : List String) (hne : parts ≠ [])
    (h : ∀ p ∈ parts, '\n' ∉ p.data) : splitNl (joinSep "\n" parts) = parts := by
  induction parts with
  | nil => exact absurd rfl hne
  | cons x rest ih =>
    cases rest with
    | nil =>
      show splitNl x = [x]
      unfold splitNl
      rw [splitNlAux_no_nl _ _ (h x (List.mem_cons_self _ _))]
      simp [strMk_data]
    | cons y rest2 =>
      show splitNl (x ++ "\n" ++ joinSep "\n" (y :: rest2)) = x :: y :: rest2
      unfold splitNl
      rw [String.data_append, String.data_append]
      have hnd : "\n".data = ['\n'] := rfl
      rw [hnd, List.append_assoc]
      show splitNlAux (x.data ++ '\n' :: (joinSep "\n" (y :: rest2)).data) [] = _
      rw [splitNlAux_split _ _ [] (h x (List.mem_cons_self _ _))]
      simp only [List.reverse_nil, List.nil_append]
      rw [strMk_data]
      have hr := ih (by simp) (fun p hp => h p (List.mem_cons_of_mem _ hp))
      unfold splitNl at hr
      rw [hr]

/-- Counterexample to claim C2: on a passing claim the success report has
eight lines (header, four confirmation lines, a blank line, and two status
lines), not the five lines the claim states. -/
theorem C2_counterexample :
    (selfCheck passingImpl).passed = true ∧
    (splitNl (selfCheck passingImpl).report).length = 8 ∧
    ¬(splitNl (selfCheck passingImpl).report).length = 5 := by
  refine ⟨by decide, by decide, by decide⟩

/-- Claim C2 (amended): when passed, the report is the fixed eight-line
success block — a header line, one confirmation line per check category, a
blank line, a PASSED status line, and a completion line; when failed, the
report is a header line, one line per issue (each issue indented by three
spaces), a blank separator, a FAILED status line, and a trailing summary line
stating the issue count. -/
theorem C2_report_structure (impl : Implementation) :
    ((selfCheck impl).passed = true →
      splitNl (selfCheck impl).report =
        ["📋 Self-Check Validation:",
         "   ✅ Tests passing",
         "   ✅ All requirements met",
         "   ✅ All assumptions verified",
         "   ✅ Evidence provided",
         "",
         "📊 Validation: PASSED",
         "✅ Implementation complete with evidence"]) ∧
    ((selfCheck impl).passed = false →
      (∀ i ∈ (selfCheck impl).issues, '\n' ∉ i.data) →
      splitNl (selfCheck impl).report =
        "📋 Self-Check Validation:" ::
          ((selfCheck impl).issues.map (fun i => "   " ++ i) ++
           ["", "📊 Validation: FAILED",
            "❌ " ++ natToDec (selfCheck impl).issues.length ++
              " issue(s) must be resolved before claiming completion"])) := by
  have hrep : (selfCheck impl).report =
      formatReport (selfCheck impl).passed (selfCheck impl).issues := rfl
  constructor
  · intro hp
    rw [hrep, hp]
    show splitNl (joinSep "\n" successReportLines) = _
    rw [splitNl_joinSep successReportLines (by decide) (by decide)]
    rfl
  · intro hp hnl
    rw [hrep, hp]
    show splitNl (joinSep "\n"
      (["📋 Self-Check Validation:"] ++
       (selfCheck impl).issues.map (fun i => "   " ++ i) ++
       ["", "📊 Validation: FAILED",
        "❌ " ++ natToDec (selfCheck impl).issues.length ++
          " issue(s) must be resolved before claiming completion"])) = _
    rw [splitNl_joinSep]
    · rfl
    · simp
    · intro p hp2
      rcases List.mem_append.mp hp2 with hp3 | hp3
      · rcases List.mem_append.mp hp3 with hp4 | hp4
        · have : p = "📋 Self-Check Validation:" := by simpa using hp4
          subst this
          decide
        · rcases List.mem_map.mp hp4 with ⟨i, hi, rfl⟩
          rw [String.data_append]
          intro hmem
          rcases List.mem_append.mp hmem with h5 | h5
          · exact absurd h5 (by decide)
          · exact hnl i hi h5
      · rcases List.mem_cons.mp hp3 with h6 | hp4
        · subst h6
          decide
        rcases List.mem_cons.mp hp4 with h6 | hp5
        · subst h6
          decide
        rcases List.mem_cons.mp hp5 with h6 | hp6
        · subst h6
          rw [String.data_append, String.data_append]
          intro hmem
          rcases List.mem_append.mp hmem with h7 | h7
          · rcases List.mem_append.mp h7 with h8 | h8
            · exact absurd h8 (by decide)
            · exact natToDec_no_nl _ h8
          · exact absurd h7 (by decide)
        · cases hp6

theorem C2_witness :
    (selfCheck failingImpl).passed = false ∧
    splitNl (selfCheck failingImpl).report =
      ["📋 Self-Check Validation:",
       "   ❌ Tests not passing — implementation is incomplete",
       "   ❌ Missing evidence: testResults, codeChanges, validation",
       "",
       "📊 Validation: FAILED",
       "❌ 2 issue(s) must be resolved before claiming completion"] := by
  refine ⟨by decide, ?_⟩
  have h := (C2_report_structure failingImpl).2 (by decide) (by decide)
  rw [h]
  decide

lemma optIssue_len_evidence (impl : Implementation) (hne : evidenceMissing impl ≠ []) :
    (optIssue (checkEvidenceExists impl)).length = 1 := by
  unfold checkEvidenceExists
  rw [if_neg (by simpa [List.length_eq_zero] using hne)]
  rfl

lemma selfCheck_len_setEvidence (impl : Implementation) (ev : Evidence)
    (hne : evidenceMissing (setEvidence impl (some ev)) ≠ []) :
    (selfCheck (setEvidence impl (some ev))).issues.length =
      (selfCheck (setEvidence impl (some noEvidence))).issues.length := by
  have hbase : evidenceMissing (setEvidence impl (some noEvidence)) =
      ["testResults", "codeChanges", "validation"] := rfl
  show (selfCheckIssues _).length = (selfCheckIssues _).length
  unfold selfCheckIssues
  simp only [List.length_append]
  rw [optIssue_len_evidence _ hne, optIssue_len_evidence _ (by rw [hbase]; simp)]
  rfl

/-- Counterexample to claim C7: adding one of the three evidence fields to an
otherwise-empty evidence record leaves the verdict's issue count at exactly 1,
because all missing evidence fields are merged into one single issue — the
issue count does not strictly decrease. -/
theorem C7_counterexample :
    (selfCheck evBaseImpl).issues.length = 1 ∧
    (selfCheck evPlusImpl).issues.length = 1 ∧
    ¬((selfCheck evPlusImpl).issues.length < (selfCheck evBaseImpl).issues.length) := by
  refine ⟨by decide, by decide, by decide⟩

/-- Claim C7 (amended): starting from a claim whose evidence record is empty,
adding any one of the three required evidence fields (a non-blank testResults,
a non-empty codeChanges, a non-blank validation) never increases the verdict's
issue count, and strictly shrinks the evidence check's list of missing fields;
the issue count itself is unchanged because the evidence check merges all
missing fields into a single issue. -/
theorem C7_evidence_monotonicity (impl : Implementation) (s : String) (l : List String)
    (hs : jsTrim s ≠ "") (hl : l ≠ []) :
    ((selfCheck (setEvidence impl (some ⟨some s, none, none⟩))).issues.length ≤
        (selfCheck (setEvidence impl (some noEvidence))).issues.length ∧
      (evidenceMissing (setEvidence impl (some ⟨some s, none, none⟩))).length <
        (evidenceMissing (setEvidence impl (some noEvidence))).length) ∧
    ((selfCheck (setEvidence impl (some ⟨none, some l, none⟩))).issues.length ≤
        (selfCheck (setEvidence impl (some noEvidence))).issues.length ∧
      (evidenceMissing (setEvidence impl (some ⟨none, some l, none⟩))).length <
        (evidenceMissing (setEvidence impl (some noEvidence))).length) ∧
    ((selfCheck (setEvidence impl (some ⟨none, none, some s⟩))).issues.length ≤
        (selfCheck (setEvidence impl (some noEvidence))).issues.length ∧
      (evidenceMissing (setEvidence impl (some ⟨none, none, some s⟩))).length <
        (evidenceMissing (setEvidence impl (some noEvidence))).length) := by
  have hsb : (jsTrim s == "") = false := by simpa using hs
  have hlb : (l.length == 0) = false := by
    simpa [List.length_eq_zero] using hl
  have hbase : evidenceMissing (setEvidence impl (some noEvidence)) =
      ["testResults", "codeChanges", "validation"] := rfl
  have h1 : evidenceMissing (setEvidence impl (some ⟨some s, none, none⟩)) =
      ["codeChanges", "validation"] := by
    show (if (jsTrim s == "") = true then _ else _) ++ _ ++ _ = _
    rw [hsb]
    rfl
  have h2 : evidenceMissing (setEvidence impl (some ⟨none, some l, none⟩)) =
      ["testResults", "validation"] := by
    show _ ++ (if (l.length == 0) = true then _ else _) ++ _ = _
    rw [hlb]
    rfl
  have h3 : evidenceMissing (setEvidence impl (some ⟨none, none, some s⟩)) =
      ["testResults", "codeChanges"] := by
    show _ ++ _ ++ (if (jsTrim s == "") = true then _ else _) = _
    rw [hsb]
    rfl
  refine ⟨⟨?_, ?_⟩, ⟨?_, ?_⟩, ⟨?_, ?_⟩⟩
  · rw [selfCheck_len_setEvidence impl _ (by rw [h1]; simp)]
  · rw [h1, hbase]
    decide
  · rw [selfCheck_len_setEvidence impl _ (by rw [h2]; simp)]
  · rw [h2, hbase]
    decide
  · rw [selfCheck_len_setEvidence impl _ (by rw [h3]; simp)]
  · rw [h3, hbase]
    decide

theorem C7_witness :
    (selfCheck (setEvidence evBaseImpl (some ⟨some "pytest output", none, none⟩))).issues.length ≤
      (selfCheck (setEvidence evBaseImpl (some noEvidence))).issues.length ∧
    (evidenceMissing (setEvidence evBaseImpl (some ⟨some "pytest output", none, none⟩))).length <
      (evidenceMissing (setEvidence evBaseImpl (some noEvidence))).length :=
  (C7_evidence_monotonicity evBaseImpl "pytest output" ["a.ts: added X"]
    (by decide) (by decide)).1

lemma mem_if_list (p : Prop) [Decidable p] (a : String) (l : List String) :
    (a ∈ if p then l else []) ↔ (p ∧ a ∈ l) := by
  by_cases h : p <;> simp [h]

/-- Counterexample to claim C8: with testsPassed true and testOutput present
but equal to the empty string, Flag A IS raised — the empty string is falsy in
the source's truthiness test — although the claim states that a present
testOutput (even if blank) never raises Flag A. -/
theorem C8_counterexample :
    blankOutputImpl.testOutput = some "" ∧
    "Claims tests pass without showing output" ∈ detectHallucinations blankOutputImpl :=
  ⟨rfl, by decide⟩

/-- Claim C8 (amended): Flag A is raised exactly when testsPassed is true and
testOutput is absent or the empty string (JavaScript falsiness); a present
non-empty testOutput — even a whitespace-only one — does not raise Flag A. -/
theorem C8_flagA_iff (impl : Implementation) :
    ("Claims tests pass without showing output" ∈ detectHallucinations impl) ↔
      (impl.testsPassed = true ∧ jsStrFalsy impl.testOutput = true) := by
  unfold detectHallucinations
  simp only [List.mem_append, mem_if_list, List.mem_singleton]
  constructor
  · rintro ((((⟨hc, _⟩ | ⟨_, ha⟩) | ⟨_, ha⟩) | ⟨_, ha⟩) | ⟨_, ha⟩)
    · simp only [Bool.and_eq_true] at hc
      exact hc
    · exact absurd ha (by decide)
    · exact absurd ha (by decide)
    · exact absurd ha (by decide)
    · exfalso
      have hu : ("Uncertainty language detected: \"" ++
          joinSep "\", \"" (uncertaintyFound impl) ++ "\"").data.head? = some 'U' := by
        rw [String.data_append, String.data_append]
        rfl
      have hc := congrArg (fun t => t.data.head?) ha
      simp only at hc
      rw [hu] at hc
      exact absurd hc (by decide)
  · intro h
    refine Or.inl (Or.inl (Or.inl (Or.inl ⟨?_, by simp⟩)))
    simp only [Bool.and_eq_true]
    exact ⟨h.1, h.2⟩

theorem C8_witness :
    "Claims tests pass without showing output" ∈ detectHallucinations noOutputImpl :=
  (C8_flagA_iff noOutputImpl).mpr ⟨rfl, rfl⟩

/-- Claim C1: for every Implementation record, the Verdict returned by selfCheck
satisfies `passed == (issues.length == 0)`: `passed` is true exactly when the
combined issues list (four-check issues plus red-flag issues) is empty. -/
theorem C1_passed_iff_no_issues (impl : Implementation) :
    (selfCheck impl).passed = ((selfCheck impl).issues.length == 0) ∧
    ((selfCheck impl).passed = true ↔ (selfCheck impl).issues = []) := by
  refine ⟨rfl, ?_⟩
  show ((selfCheckIssues impl).length == 0) = true ↔ selfCheckIssues impl = []
  simp [List.length_eq_zero]

theorem C1_witness : (selfCheck passingImpl).passed = true :=
  (C1_passed_iff_no_issues passingImpl).2.mpr (by decide)
